import Mathlib

/-!
Shallow embedding of the agent-identity simulator client
(src/app/components/AgentSimulator.tsx): configuration validation,
credential resolution, token authentication, gateway dispatch and the
scenario runner, together with theorems about the probe scenarios.

Network effects are modelled by passing the environment's behaviour
(what each fetch would return) as explicit inputs, and by returning the
trace of network calls the run performs.
-/

/-- Identifier/secret pair for one configured agent role. -/
structure AgentCredentials where
  agentId : String
  agentSecret : String
  deriving DecidableEq, Repr

/-- The configuration surface consumed by the simulator: organization
name, client identifier, target URL and the two agent-role records. -/
structure AppConfig where
  orgName : String
  clientId : String
  targetUrl : String
  coordinatorAgent : AgentCredentials
  expertAgent : AgentCredentials
  deriving DecidableEq, Repr

/-- The three simulation cases of the runner
(the `SimulationCase` union type in the source). -/
inductive SimulationCase where
  | correctAgent
  | wrongAgent
  | noAuth
  deriving DecidableEq, Repr

/-- Outcome of parsing a response body as JSON: `response.json()`
either rejects with a parse error or yields the parsed value. -/
inductive ParseOutcome (α : Type) where
  | malformed (msg : String)
  | parsed (v : α)
  deriving DecidableEq, Repr

/-- The fields of a parsed token-endpoint response body that the client
reads: the optional `error` field and the optional `access_token`
field (either may be absent). -/
structure TokenBody where
  error : Option String
  access_token : Option String
  deriving DecidableEq, Repr

/-- Behaviour of the token endpoint for one authentication request:
either the fetch itself rejects (network unreachable), or a response
arrives with an ok-flag and a body parse outcome. -/
inductive TokenFetch where
  | netError (msg : String)
  | response (ok : Bool) (body : ParseOutcome TokenBody)
  deriving DecidableEq, Repr

/-- Behaviour of the gateway endpoint for one chat request: either the
fetch rejects, or a response arrives with a status code and a body
parse outcome (the body is opaque arbitrary JSON, kept as a string). -/
inductive ChatFetch where
  | netError (msg : String)
  | response (status : Nat) (body : ParseOutcome String)
  deriving DecidableEq, Repr

/-- Result of a JavaScript async computation: either a thrown error
(carrying its message) or a value. -/
inductive JsResult (α : Type) where
  | thrown (msg : String)
  | value (v : α)
  deriving DecidableEq, Repr

/-- A response body as stored in a result record: either pass-through
JSON from the gateway, or the synthesized error object built in the
runner's catch branch. -/
inductive RespBody where
  | json (payload : String)
  | errorObj (msg : String)
  deriving DecidableEq, Repr

/-- One recorded outcome of a scenario run (`SimulationResult` in the
source); the timestamp is abstracted to a natural number. -/
structure SimulationResult where
  caseType : SimulationCase
  agentType : String
  authUsed : String
  tokenReceived : Option String
  response : RespBody
  statusCode : Nat
  timestamp : Nat
  deriving DecidableEq, Repr

/-- One observable network call attempted by a run. -/
inductive NetCall where
  | tokenRequest (orgName clientId agentId agentSecret : String)
  | chatRequest (headers : List (String × String)) (body : String)
  deriving DecidableEq, Repr

/-- The environment of one run: what the token endpoint and the gateway
endpoint would answer, and the current time. -/
structure Env where
  tokenFetch : TokenFetch
  chatFetch : ChatFetch
  now : Nat
  deriving DecidableEq, Repr

/-- JavaScript truthiness of a `string | null | undefined` value:
`null`, `undefined` and the empty string are falsy. -/
def jsTruthyStr : Option String → Bool
  | some s => s != ""
  | none => false

/-- `isConfigValid`: all three scalar fields and both credential pairs
must be non-empty (JS truthiness of the `&&` chain over the strings). -/
def isConfigValid (config : AppConfig) : Bool :=
  config.orgName != "" && config.clientId != "" && config.targetUrl != "" &&
  config.coordinatorAgent.agentId != "" && config.coordinatorAgent.agentSecret != "" &&
  config.expertAgent.agentId != "" && config.expertAgent.agentSecret != ""

/-- `getAgentCredentials`: resolve an agent type to its configured
credential pair (coordinator for `Support-Coordinator`, expert
otherwise). -/
def getAgentCredentials (config : AppConfig) (agentType : String) : AgentCredentials :=
  if agentType = "Support-Coordinator" then
    { agentId := config.coordinatorAgent.agentId
      agentSecret := config.coordinatorAgent.agentSecret }
  else
    { agentId := config.expertAgent.agentId
      agentSecret := config.expertAgent.agentSecret }

/-- The fixed credential/claim pairing returned by
`getWrongAgentCredentials`. -/
structure WrongAgentCredentials where
  credentials : AgentCredentials
  claimedAgentType : String
  deriving DecidableEq, Repr

/-- `getWrongAgentCredentials`: the coordinator's credentials paired
with the hard-coded claimed type `Technical-Specialist`. -/
def getWrongAgentCredentials (config : AppConfig) : WrongAgentCredentials :=
  { credentials :=
      { agentId := config.coordinatorAgent.agentId
        agentSecret := config.coordinatorAgent.agentSecret }
    claimedAgentType := "Technical-Specialist" }

/-- `authenticateAgent`: perform the token exchange. A fetch rejection
propagates; a body that fails to parse makes `response.json()` throw;
a non-ok response throws the parsed `error` field when truthy, else
the generic message; an ok response returns the `access_token` field
verbatim (possibly absent). -/
def authenticateAgent : TokenFetch → JsResult (Option String)
  | TokenFetch.netError msg => JsResult.thrown msg
  | TokenFetch.response ok body =>
    match body with
    | ParseOutcome.malformed msg => JsResult.thrown msg
    | ParseOutcome.parsed b =>
      if ok then
        JsResult.value b.access_token
      else
        JsResult.thrown (if jsTruthyStr b.error then b.error.getD "" else "Failed to authenticate")

/-- The header map built by `sendChatRequest`: content type, claimed
agent type, target URL, and the bearer authorization header only when
the token is truthy. -/
def chatRequestHeaders (token : Option String) (agentType : String)
    (targetUrl : String) : List (String × String) :=
  [("Content-Type", "application/json"),
   ("x-agent-type", agentType),
   ("x-target-url", targetUrl)] ++
  (if jsTruthyStr token then [("Authorization", "Bearer " ++ token.getD "")] else [])

/-- The synthetic chat message content sent by `sendChatRequest`
(the single user message of the request body). -/
def chatRequestBody (agentType : String) : String :=
  "Hello, I am " ++ agentType ++ ". This is a test message."

/-- `sendChatRequest` response handling: a fetch rejection or a
malformed body throws; otherwise the parsed data and the status code
are returned. -/
def sendChatRequest : ChatFetch → JsResult (RespBody × Nat)
  | ChatFetch.netError msg => JsResult.thrown msg
  | ChatFetch.response _ (ParseOutcome.malformed msg) => JsResult.thrown msg
  | ChatFetch.response status (ParseOutcome.parsed payload) =>
      JsResult.value (RespBody.json payload, status)

/-- The body of `runSimulation`'s try block: executes the selected
scenario and returns its outcome together with the trace of network
calls attempted. -/
def tryScenario (config : AppConfig) (selectedCase : SimulationCase)
    (selectedAgent : String) (env : Env) : JsResult SimulationResult × List NetCall :=
  match selectedCase with
  | SimulationCase.correctAgent =>
    let credentials := getAgentCredentials config selectedAgent
    let authCall := NetCall.tokenRequest config.orgName config.clientId
      credentials.agentId credentials.agentSecret
    match authenticateAgent env.tokenFetch with
    | JsResult.thrown msg => (JsResult.thrown msg, [authCall])
    | JsResult.value token =>
      let chatCall := NetCall.chatRequest
        (chatRequestHeaders token selectedAgent config.targetUrl)
        (chatRequestBody selectedAgent)
      match sendChatRequest env.chatFetch with
      | JsResult.thrown msg => (JsResult.thrown msg, [authCall, chatCall])
      | JsResult.value (data, statusCode) =>
        (JsResult.value
          { caseType := SimulationCase.correctAgent
            agentType := selectedAgent
            authUsed := selectedAgent ++ " credentials"
            tokenReceived := token
            response := data
            statusCode := statusCode
            timestamp := env.now }, [authCall, chatCall])
  | SimulationCase.wrongAgent =>
    let wrong := getWrongAgentCredentials config
    let authCall := NetCall.tokenRequest config.orgName config.clientId
      wrong.credentials.agentId wrong.credentials.agentSecret
    match authenticateAgent env.tokenFetch with
    | JsResult.thrown msg => (JsResult.thrown msg, [authCall])
    | JsResult.value token =>
      let chatCall := NetCall.chatRequest
        (chatRequestHeaders token wrong.claimedAgentType config.targetUrl)
        (chatRequestBody wrong.claimedAgentType)
      match sendChatRequest env.chatFetch with
      | JsResult.thrown msg => (JsResult.thrown msg, [authCall, chatCall])
      | JsResult.value (data, statusCode) =>
        (JsResult.value
          { caseType := SimulationCase.wrongAgent
            agentType := "Technical-Specialist"
            authUsed := "Support-Coordinator credentials"
            tokenReceived := token
            response := data
            statusCode := statusCode
            timestamp := env.now }, [authCall, chatCall])
  | SimulationCase.noAuth =>
    let chatCall := NetCall.chatRequest
      (chatRequestHeaders none selectedAgent config.targetUrl)
      (chatRequestBody selectedAgent)
    match sendChatRequest env.chatFetch with
    | JsResult.thrown msg => (JsResult.thrown msg, [chatCall])
    | JsResult.value (data, statusCode) =>
      (JsResult.value
        { caseType := SimulationCase.noAuth
          agentType := selectedAgent
          authUsed := "No authentication"
          tokenReceived := none
          response := data
          statusCode := statusCode
          timestamp := env.now }, [chatCall])

/-- The synthesized failure record built in `runSimulation`'s catch
branch: sentinel status 500, the error text wrapped as the response
body, no token, and the selection-derived agent/auth description. -/
def errorResult (selectedCase : SimulationCase) (selectedAgent : String)
    (msg : String) (now : Nat) : SimulationResult :=
  { caseType := selectedCase
    agentType := selectedAgent
    authUsed :=
      if selectedCase = SimulationCase.noAuth then "No authentication"
      else selectedAgent ++ " credentials"
    tokenReceived := none
    response := RespBody.errorObj msg
    statusCode := 500
    timestamp := now }

/-- `runSimulation`: abort with no call and no record when the
configuration is incomplete; otherwise run the scenario, prepending
either its result or the synthesized failure record to the history. -/
def runSimulation (config : AppConfig) (selectedCase : SimulationCase)
    (selectedAgent : String) (env : Env) (results : List SimulationResult) :
    List SimulationResult × List NetCall :=
  if isConfigValid config then
    match tryScenario config selectedCase selectedAgent env with
    | (JsResult.value result, calls) => (result :: results, calls)
    | (JsResult.thrown msg, calls) =>
        (errorResult selectedCase selectedAgent msg env.now :: results, calls)
  else
    (results, [])

/-- `clearResults`: the explicit clear operation empties the history. -/
def clearResults (_ : List SimulationResult) : List SimulationResult := []

/-- Display classification of a status code
(the class chosen by `getStatusBadge`). -/
inductive StatusClass where
  | success
  | clientError
  | error
  deriving DecidableEq, Repr

/-- `getStatusBadge`'s classification: 2xx is success, 4xx is client
error, everything else is error. -/
def getStatusBadge (statusCode : Nat) : StatusClass :=
  if 200 ≤ statusCode ∧ statusCode < 300 then StatusClass.success
  else if 400 ≤ statusCode ∧ statusCode < 500 then StatusClass.clientError
  else StatusClass.error

/-- The example configuration of the specification's scenario example. -/
def exampleConfig : AppConfig :=
  { orgName := "acme"
    clientId := "c1"
    targetUrl := "https://gw.example/chat"
    coordinatorAgent := { agentId := "coord-1", agentSecret := "s1" }
    expertAgent := { agentId := "spec-1", agentSecret := "s2" } }

/-- An environment in which authentication succeeds with token T and
the gateway answers 200. -/
def exampleEnvOk : Env :=
  { tokenFetch := TokenFetch.response true
      (ParseOutcome.parsed { error := none, access_token := some "T" })
    chatFetch := ChatFetch.response 200 (ParseOutcome.parsed "ok")
    now := 0 }

/-- An environment in which both endpoints are unreachable. -/
def exampleEnvFail : Env :=
  { tokenFetch := TokenFetch.netError "fetch failed"
    chatFetch := ChatFetch.netError "fetch failed"
    now := 0 }

/-- A configuration with a missing (empty) organization name. -/
def exampleBadConfig : AppConfig :=
  { orgName := ""
    clientId := "c1"
    targetUrl := "https://gw.example/chat"
    coordinatorAgent := { agentId := "coord-1", agentSecret := "s1" }
    expertAgent := { agentId := "spec-1", agentSecret := "s2" } }

/-- With a valid configuration, the new history is the scenario's
result (or the synthesized failure record) prepended to the old one. -/
lemma runSimulation_results (config : AppConfig) (selectedCase : SimulationCase)
    (selectedAgent : String) (env : Env) (results : List SimulationResult)
    (h : isConfigValid config = true) :
    (runSimulation config selectedCase selectedAgent env results).1 =
      (match (tryScenario config selectedCase selectedAgent env).1 with
        | JsResult.value r => r
        | JsResult.thrown msg => errorResult selectedCase selectedAgent msg env.now) ::
        results := by
  rcases htry : tryScenario config selectedCase selectedAgent env with ⟨out, calls⟩
  cases out <;> simp [runSimulation, h, htry]

/-- With a valid configuration, the run's network trace is the
scenario's trace. -/
lemma runSimulation_calls (config : AppConfig) (selectedCase : SimulationCase)
    (selectedAgent : String) (env : Env) (results : List SimulationResult)
    (h : isConfigValid config = true) :
    (runSimulation config selectedCase selectedAgent env results).2 =
      (tryScenario config selectedCase selectedAgent env).2 := by
  rcases htry : tryScenario config selectedCase selectedAgent env with ⟨out, calls⟩
  cases out <;> simp [runSimulation, h, htry]

/-- The impersonation scenario's network trace: always the coordinator
token request first, then at most one dispatch claiming
`Technical-Specialist`. -/
lemma tryScenario_wrongAgent_calls (config : AppConfig) (selectedAgent : String)
    (env : Env) :
    (tryScenario config SimulationCase.wrongAgent selectedAgent env).2 =
      [NetCall.tokenRequest config.orgName config.clientId
        config.coordinatorAgent.agentId config.coordinatorAgent.agentSecret] ∨
    ∃ token, (tryScenario config SimulationCase.wrongAgent selectedAgent env).2 =
      [NetCall.tokenRequest config.orgName config.clientId
        config.coordinatorAgent.agentId config.coordinatorAgent.agentSecret,
       NetCall.chatRequest
        (chatRequestHeaders token "Technical-Specialist" config.targetUrl)
        (chatRequestBody "Technical-Specialist")] := by
  cases hA : authenticateAgent env.tokenFetch with
  | thrown msg =>
    exact Or.inl (by simp [tryScenario, getWrongAgentCredentials, hA])
  | value token =>
    refine Or.inr ⟨token, ?_⟩
    cases hC : sendChatRequest env.chatFetch with
    | thrown msg => simp [tryScenario, getWrongAgentCredentials, hA, hC]
    | value v =>
      obtain ⟨data, st⟩ := v
      simp [tryScenario, getWrongAgentCredentials, hA, hC]

/-- The unauthenticated scenario's network trace is exactly one
dispatch carrying no token. -/
lemma tryScenario_noAuth_calls (config : AppConfig) (selectedAgent : String)
    (env : Env) :
    (tryScenario config SimulationCase.noAuth selectedAgent env).2 =
      [NetCall.chatRequest (chatRequestHeaders none selectedAgent config.targetUrl)
        (chatRequestBody selectedAgent)] := by
  cases hC : sendChatRequest env.chatFetch with
  | thrown msg => simp [tryScenario, hC]
  | value v =>
    obtain ⟨data, st⟩ := v
    simp [tryScenario, hC]

/-- C1: with complete configuration, every invocation prepends exactly
one result to the history — the scenario's result on success, and on
any thrown failure (unreachable token endpoint or gateway included)
the synthesized record with sentinel status 500, the error text as the
response body, and an empty token field. -/
theorem result_totality (config : AppConfig) (selectedCase : SimulationCase)
    (selectedAgent : String) (env : Env) (results : List SimulationResult)
    (h : isConfigValid config = true) :
    ((runSimulation config selectedCase selectedAgent env results).1 =
      (match (tryScenario config selectedCase selectedAgent env).1 with
        | JsResult.value r => r
        | JsResult.thrown msg => errorResult selectedCase selectedAgent msg env.now) ::
        results) ∧
    ∀ msg, (errorResult selectedCase selectedAgent msg env.now).statusCode = 500 ∧
      (errorResult selectedCase selectedAgent msg env.now).response =
        RespBody.errorObj msg ∧
      (errorResult selectedCase selectedAgent msg env.now).tokenReceived = none := by
  refine ⟨runSimulation_results config selectedCase selectedAgent env results h, ?_⟩
  intro msg
  simp [errorResult]

/-- Witness for C1 at a concrete configuration with both endpoints
unreachable: exactly the synthesized failure record is prepended. -/
theorem result_totality_witness :
    (runSimulation exampleConfig SimulationCase.correctAgent "Support-Coordinator"
      exampleEnvFail []).1 =
      [errorResult SimulationCase.correctAgent "Support-Coordinator" "fetch failed" 0] :=
  (result_totality exampleConfig SimulationCase.correctAgent "Support-Coordinator"
    exampleEnvFail [] (by decide)).1

/-- C2: with any required configuration field missing (empty), the run
aborts before any scenario step: no network call is attempted and the
history is unchanged. -/
theorem precondition_gate (config : AppConfig) (selectedCase : SimulationCase)
    (selectedAgent : String) (env : Env) (results : List SimulationResult)
    (h : config.orgName = "" ∨ config.clientId = "" ∨ config.targetUrl = "" ∨
      config.coordinatorAgent.agentId = "" ∨ config.coordinatorAgent.agentSecret = "" ∨
      config.expertAgent.agentId = "" ∨ config.expertAgent.agentSecret = "") :
    runSimulation config selectedCase selectedAgent env results = (results, []) := by
  have hv : isConfigValid config = false := by
    unfold isConfigValid
    rcases h with h | h | h | h | h | h | h <;> simp [h]
  simp [runSimulation, hv]

/-- Witness for C2: a configuration with an empty organization name
yields no call and no recorded result. -/
theorem precondition_gate_witness :
    runSimulation exampleBadConfig SimulationCase.correctAgent "Support-Coordinator"
      exampleEnvOk [] = ([], []) :=
  precondition_gate exampleBadConfig SimulationCase.correctAgent "Support-Coordinator"
    exampleEnvOk [] (Or.inl rfl)

/-- C5 counterexample: on a non-success token response whose body is
malformed, the authenticator throws the JSON parse error, not the
generic "Failed to authenticate" the claim requires. -/
theorem auth_generic_reason_counterexample :
    authenticateAgent (TokenFetch.response false
      (ParseOutcome.malformed "Unexpected end of JSON input")) =
      JsResult.thrown "Unexpected end of JSON input" ∧
    (JsResult.thrown "Unexpected end of JSON input" :
      JsResult (Option String)) ≠ JsResult.thrown "Failed to authenticate" := by
  exact ⟨rfl, by decide⟩

/-- C5 amended: on a non-success token response, a body that parses
but has no truthy error field yields the generic reason "Failed to
authenticate"; a truthy error field is thrown verbatim; a malformed or
absent body makes the JSON parse error itself propagate instead of the
generic reason. -/
theorem auth_failure_reasons :
    (∀ msg, authenticateAgent (TokenFetch.response false (ParseOutcome.malformed msg)) =
      JsResult.thrown msg) ∧
    (∀ tok : Option String, authenticateAgent (TokenFetch.response false
      (ParseOutcome.parsed { error := none, access_token := tok })) =
      JsResult.thrown "Failed to authenticate") ∧
    (∀ tok : Option String, authenticateAgent (TokenFetch.response false
      (ParseOutcome.parsed { error := some "", access_token := tok })) =
      JsResult.thrown "Failed to authenticate") ∧
    (∀ (e : String) (tok : Option String), e ≠ "" →
      authenticateAgent (TokenFetch.response false
        (ParseOutcome.parsed { error := some e, access_token := tok })) =
      JsResult.thrown e) := by
  refine ⟨fun msg => rfl, fun tok => rfl, fun tok => rfl, fun e tok he => ?_⟩
  simp [authenticateAgent, jsTruthyStr, he]

/-- Witness for the amended C5 at a concrete non-empty error field. -/
theorem auth_failure_reasons_witness :
    ("invalid-agent" ≠ "") ∧
    authenticateAgent (TokenFetch.response false
      (ParseOutcome.parsed { error := some "invalid-agent", access_token := none })) =
      JsResult.thrown "invalid-agent" :=
  ⟨by decide, auth_failure_reasons.2.2.2 "invalid-agent" none (by decide)⟩

/-- C6: the status badge classification is a pure function of the
numeric code: exactly the codes in [200,300) are "success", exactly
those in [400,500) are "client error", and every other code — 503 and
codes below 200 included — is "error". -/
theorem status_classification (n : Nat) :
    (getStatusBadge n = StatusClass.success ↔ 200 ≤ n ∧ n < 300) ∧
    (getStatusBadge n = StatusClass.clientError ↔ 400 ≤ n ∧ n < 500) ∧
    (getStatusBadge n = StatusClass.error ↔
      ¬(200 ≤ n ∧ n < 300) ∧ ¬(400 ≤ n ∧ n < 500)) ∧
    getStatusBadge 200 = StatusClass.success ∧
    getStatusBadge 404 = StatusClass.clientError ∧
    getStatusBadge 503 = StatusClass.error ∧
    getStatusBadge 150 = StatusClass.error := by
  refine ⟨?_, ?_, ?_, by decide, by decide, by decide, by decide⟩ <;>
  · unfold getStatusBadge
    split_ifs with h1 h2 <;> simp_all
    all_goals omega

/-- C3: the impersonation scenario's credential/claim pairing is the
fixed constant (coordinator credentials, claimed type
`Technical-Specialist`): every run authenticates with the
coordinator's configured pair, every dispatch it makes claims
`Technical-Specialist`, and its network trace is identical for every
value of the selected-agent state. -/
theorem impersonation_fixed_mapping (config : AppConfig) (selectedAgent : String)
    (env : Env) (results : List SimulationResult)
    (h : isConfigValid config = true) :
    (∀ c : AppConfig, getWrongAgentCredentials c =
      { credentials := c.coordinatorAgent
        claimedAgentType := "Technical-Specialist" }) ∧
    (runSimulation config SimulationCase.wrongAgent selectedAgent env results).2.head? =
      some (NetCall.tokenRequest config.orgName config.clientId
        config.coordinatorAgent.agentId config.coordinatorAgent.agentSecret) ∧
    (∀ hdrs body, NetCall.chatRequest hdrs body ∈
        (runSimulation config SimulationCase.wrongAgent selectedAgent env results).2 →
      hdrs.lookup "x-agent-type" = some "Technical-Specialist") ∧
    (∀ otherAgent : String,
      (runSimulation config SimulationCase.wrongAgent otherAgent env results).2 =
      (runSimulation config SimulationCase.wrongAgent selectedAgent env results).2) := by
  refine ⟨fun c => rfl, ?_, ?_, ?_⟩
  · rw [runSimulation_calls config SimulationCase.wrongAgent selectedAgent env results h]
    rcases tryScenario_wrongAgent_calls config selectedAgent env with hc | ⟨token, hc⟩ <;>
      simp [hc]
  · intro hdrs body hmem
    rw [runSimulation_calls config SimulationCase.wrongAgent selectedAgent env results h]
      at hmem
    rcases tryScenario_wrongAgent_calls config selectedAgent env with hc | ⟨token, hc⟩ <;>
      rw [hc] at hmem <;> simp at hmem
    obtain ⟨hh, -⟩ := hmem
    subst hh
    simp [chatRequestHeaders, List.lookup]
  · intro otherAgent
    rw [runSimulation_calls config SimulationCase.wrongAgent otherAgent env results h,
      runSimulation_calls config SimulationCase.wrongAgent selectedAgent env results h]
    rfl

/-- Witness for C3 at the example configuration: the fixed pairing is
the coordinator's credentials with the `Technical-Specialist` claim. -/
theorem impersonation_fixed_mapping_witness :
    getWrongAgentCredentials exampleConfig =
      { credentials := exampleConfig.coordinatorAgent
        claimedAgentType := "Technical-Specialist" } :=
  (impersonation_fixed_mapping exampleConfig "Support-Coordinator" exampleEnvOk []
    (by decide)).1 exampleConfig

/-- C4: the unauthenticated scenario dispatches exactly one request
whose header map has no `Authorization` key at all, while it does
carry the content-type, `x-agent-type` and `x-target-url` headers. -/
theorem no_token_header_omission (config : AppConfig) (selectedAgent : String)
    (env : Env) (results : List SimulationResult)
    (h : isConfigValid config = true) :
    (runSimulation config SimulationCase.noAuth selectedAgent env results).2 =
      [NetCall.chatRequest
        [("Content-Type", "application/json"),
         ("x-agent-type", selectedAgent),
         ("x-target-url", config.targetUrl)]
        (chatRequestBody selectedAgent)] ∧
    "Authorization" ∉
      (chatRequestHeaders none selectedAgent config.targetUrl).map Prod.fst ∧
    (chatRequestHeaders none selectedAgent config.targetUrl).map Prod.fst =
      ["Content-Type", "x-agent-type", "x-target-url"] := by
  refine ⟨?_, ?_, ?_⟩
  · rw [runSimulation_calls config SimulationCase.noAuth selectedAgent env results h,
      tryScenario_noAuth_calls]
    simp [chatRequestHeaders, jsTruthyStr]
  · simp [chatRequestHeaders, jsTruthyStr]
  · simp [chatRequestHeaders, jsTruthyStr]

/-- Witness for C4 at the example configuration. -/
theorem no_token_header_omission_witness :
    (runSimulation exampleConfig SimulationCase.noAuth "Technical-Specialist"
      exampleEnvOk []).2 =
      [NetCall.chatRequest
        [("Content-Type", "application/json"),
         ("x-agent-type", "Technical-Specialist"),
         ("x-target-url", "https://gw.example/chat")]
        (chatRequestBody "Technical-Specialist")] :=
  (no_token_header_omission exampleConfig "Technical-Specialist" exampleEnvOk []
    (by decide)).1

/-- C7: credential resolution is role-isolating — each of the two
configured roles resolves to exactly its own identifier/secret pair —
and on the specification's example configuration the matched-identity
run with the coordinator authenticates with ("acme","c1","coord-1","s1"),
dispatches with `x-agent-type: Support-Coordinator` and
`Authorization: Bearer T`, and records `Support-Coordinator
credentials` as the authentication used. -/
theorem role_isolation_and_matched_scenario :
    (∀ config : AppConfig,
      getAgentCredentials config "Support-Coordinator" = config.coordinatorAgent ∧
      getAgentCredentials config "Technical-Specialist" = config.expertAgent) ∧
    runSimulation exampleConfig SimulationCase.correctAgent "Support-Coordinator"
      exampleEnvOk [] =
      ([{ caseType := SimulationCase.correctAgent
          agentType := "Support-Coordinator"
          authUsed := "Support-Coordinator credentials"
          tokenReceived := some "T"
          response := RespBody.json "ok"
          statusCode := 200
          timestamp := 0 }],
       [NetCall.tokenRequest "acme" "c1" "coord-1" "s1",
        NetCall.chatRequest
          [("Content-Type", "application/json"),
           ("x-agent-type", "Support-Coordinator"),
           ("x-target-url", "https://gw.example/chat"),
           ("Authorization", "Bearer T")]
          (chatRequestBody "Support-Coordinator")]) := by
  refine ⟨fun config => ⟨rfl, rfl⟩, by decide⟩

/-- C8: every completed invocation (success or synthesized failure)
prepends one record to the front of the history — the list grows by
exactly one with the previous history as its tail — and the explicit
clear operation empties it. -/
theorem history_prepend_and_clear (config : AppConfig) (selectedCase : SimulationCase)
    (selectedAgent : String) (env : Env) (results : List SimulationResult)
    (h : isConfigValid config = true) :
    (runSimulation config selectedCase selectedAgent env results).1.length =
      results.length + 1 ∧
    (runSimulation config selectedCase selectedAgent env results).1.tail = results ∧
    ∀ l : List SimulationResult, clearResults l = [] := by
  rw [runSimulation_results config selectedCase selectedAgent env results h]
  exact ⟨by simp, rfl, fun l => rfl⟩

/-- Witness for C8 at the example configuration. -/
theorem history_prepend_and_clear_witness :
    (runSimulation exampleConfig SimulationCase.noAuth "Support-Coordinator"
      exampleEnvOk []).1.length = 0 + 1 :=
  (history_prepend_and_clear exampleConfig SimulationCase.noAuth "Support-Coordinator"
    exampleEnvOk [] (by decide)).1

/-- C9: when the impersonation scenario fails (authentication or
dispatch throws), the synthesized record carries the UI-selected agent
as its agent type and "<selected agent> credentials" as the
authentication description — not the fixed
`Technical-Specialist` / `Support-Coordinator credentials` pair the
success path records. -/
theorem impersonation_failure_result_uses_selection (config : AppConfig)
    (selectedAgent : String) (env : Env) (results : List SimulationResult)
    (msg : String) (h : isConfigValid config = true)
    (ht : (tryScenario config SimulationCase.wrongAgent selectedAgent env).1 =
      JsResult.thrown msg) :
    (runSimulation config SimulationCase.wrongAgent selectedAgent env results).1 =
      { caseType := SimulationCase.wrongAgent
        agentType := selectedAgent
        authUsed := selectedAgent ++ " credentials"
        tokenReceived := none
        response := RespBody.errorObj msg
        statusCode := 500
        timestamp := env.now } :: results := by
  rw [runSimulation_results config SimulationCase.wrongAgent selectedAgent env results h,
    ht]
  simp [errorResult]

/-- Witness for C9: with the token endpoint unreachable, the
impersonation run records the selected agent, not the fixed pair. -/
theorem impersonation_failure_result_uses_selection_witness :
    (runSimulation exampleConfig SimulationCase.wrongAgent "Support-Coordinator"
      exampleEnvFail []).1 =
      [{ caseType := SimulationCase.wrongAgent
         agentType := "Support-Coordinator"
         authUsed := "Support-Coordinator" ++ " credentials"
         tokenReceived := none
         response := RespBody.errorObj "fetch failed"
         statusCode := 500
         timestamp := 0 }] :=
  impersonation_failure_result_uses_selection exampleConfig "Support-Coordinator"
    exampleEnvFail [] "fetch failed" (by decide) (by decide)

/-- C10: a dispatch carries the `Authorization` header exactly when the
supplied token is truthy, so a successful token exchange that yields
an empty or missing `access_token` field produces a dispatch with no
`Authorization` header — identical, at the gateway, to the
unauthenticated scenario's dispatch. -/
theorem authorization_iff_truthy_token :
    (∀ (token : Option String) (agentType targetUrl : String),
      "Authorization" ∈ (chatRequestHeaders token agentType targetUrl).map Prod.fst ↔
        jsTruthyStr token = true) ∧
    (∀ agentType targetUrl : String,
      chatRequestHeaders (some "") agentType targetUrl =
        chatRequestHeaders none agentType targetUrl) ∧
    authenticateAgent (TokenFetch.response true
      (ParseOutcome.parsed { error := none, access_token := some "" })) =
      JsResult.value (some "") ∧
    authenticateAgent (TokenFetch.response true
      (ParseOutcome.parsed { error := none, access_token := none })) =
      JsResult.value none ∧
    (runSimulation exampleConfig SimulationCase.correctAgent "Support-Coordinator"
      { tokenFetch := TokenFetch.response true
          (ParseOutcome.parsed { error := none, access_token := some "" })
        chatFetch := ChatFetch.response 401 (ParseOutcome.parsed "denied")
        now := 0 } []).2.getLast? =
    (runSimulation exampleConfig SimulationCase.noAuth "Support-Coordinator"
      { tokenFetch := TokenFetch.response true
          (ParseOutcome.parsed { error := none, access_token := some "" })
        chatFetch := ChatFetch.response 401 (ParseOutcome.parsed "denied")
        now := 0 } []).2.getLast? := by
  refine ⟨?_, ?_, rfl, rfl, by decide⟩
  · intro token agentType targetUrl
    cases token with
    | none => simp [chatRequestHeaders, jsTruthyStr]
    | some s =>
      by_cases hs : s = ""
      · subst hs; simp [chatRequestHeaders, jsTruthyStr]
      · simp [chatRequestHeaders, jsTruthyStr, hs]
  · intro agentType targetUrl
    simp [chatRequestHeaders, jsTruthyStr]
